import Mathlib

/-
Verification of the statistical core and one plotting helper of the
Netflix-Content-Strategy-Analysis repository.

The statistical core (src/categorical_association.py) works on a contingency
table of rational counts.  We embed a table as an R × C matrix of rationals.

The external library call `scipy.stats.chi2_contingency` is not part of the
repository; it is modelled from the spec (section 4.1): it returns the Pearson
chi-square statistic, a p-value for the chi-square distribution with
(R-1)(C-1) degrees of freedom, the degrees of freedom, and the table of
expected frequencies `expected[i][j] = row_total[i] * col_total[j] / n`,
and it fails with InvalidInputError when any row or column total is zero or
when the table has fewer than 2 rows or 2 columns.  The chi-square
distribution's tail function is transcendental, so the p-value is kept
abstract: every definition is parameterised by a function
`pv : ℕ → ℚ → ℚ` mapping (degrees of freedom, statistic) to the p-value.
-/

/-- Errors the Python code can raise: `InvalidInputError` (the spec's name for
the degenerate-table failure of the chi-square routine), Python's `NameError`
(raised by use of an undefined identifier) and `IndexError` (raised by an
out-of-range list index). -/
inductive PyErr where
  | invalidInput : PyErr
  | nameError : PyErr
  | indexError : PyErr
deriving DecidableEq, Repr

/-- A contingency table: an `R × C` matrix of rational observed counts. -/
structure CTable where
  R : ℕ
  C : ℕ
  entry : Fin R → Fin C → ℚ

/-- Total of row `i` of the table. -/
def rowTotal (t : CTable) (i : Fin t.R) : ℚ := ∑ j : Fin t.C, t.entry i j

/-- Total of column `j` of the table. -/
def colTotal (t : CTable) (j : Fin t.C) : ℚ := ∑ i : Fin t.R, t.entry i j

/-- Grand total `n` of the table (`np.sum(contingency_table.values)`). -/
def grandTotal (t : CTable) : ℚ := ∑ i : Fin t.R, ∑ j : Fin t.C, t.entry i j

/-- Expected frequency under independence:
`expected[i][j] = row_total[i] * col_total[j] / grand_total`. -/
def expectedFreq (t : CTable) (i : Fin t.R) (j : Fin t.C) : ℚ :=
  rowTotal t i * colTotal t j / grandTotal t

/-- Pearson chi-square statistic:
`sum over cells of (observed - expected)^2 / expected`. -/
def pearsonChi2 (t : CTable) : ℚ :=
  ∑ i : Fin t.R, ∑ j : Fin t.C,
    (t.entry i j - expectedFreq t i j) ^ 2 / expectedFreq t i j

/-- Degrees of freedom of the test: `(R - 1) * (C - 1)`. -/
def degreesOfFreedom (t : CTable) : ℕ := (t.R - 1) * (t.C - 1)

/-- All entries of the table are non-negative (the spec's invariant on
contingency tables). -/
def nonnegTable (t : CTable) : Prop := ∀ i j, 0 ≤ t.entry i j

instance (t : CTable) : Decidable (nonnegTable t) := by
  unfold nonnegTable; infer_instance

/-- The input condition under which the chi-square routine succeeds: at least
2 rows, at least 2 columns, and no zero row or column total. -/
def validInput (t : CTable) : Prop :=
  2 ≤ t.R ∧ 2 ≤ t.C ∧ (∀ i, rowTotal t i ≠ 0) ∧ (∀ j, colTotal t j ≠ 0)

instance (t : CTable) : Decidable (validInput t) := by
  unfold validInput; infer_instance

/-- Modelled from the spec: the external call `scipy.stats.chi2_contingency`
(not part of this repository).  On a valid table it returns the 4-tuple
`(chi2, p, dof, expected)` with the Pearson statistic, the p-value
`pv dof chi2` (abstract), `dof = (R-1)(C-1)` and the expected-frequency
table; otherwise it fails with `InvalidInputError`. -/
def chi2_contingency (pv : ℕ → ℚ → ℚ) (t : CTable) :
    Except PyErr (ℚ × ℚ × ℕ × (Fin t.R → Fin t.C → ℚ)) :=
  if validInput t then
    .ok (pearsonChi2 t, pv (degreesOfFreedom t) (pearsonChi2 t),
         degreesOfFreedom t, fun i j => expectedFreq t i j)
  else .error .invalidInput

/-- Decision labels of the independence test. -/
inductive Decision where
  | reject_h0 : Decision
  | fail_to_reject_h0 : Decision
deriving DecidableEq, Repr

/-- Decision printed by `chi_square_test`: `if p < alpha` then reject H0,
otherwise fail to reject H0. -/
def chiSquareDecision (p alpha : ℚ) : Decision :=
  if p < alpha then .reject_h0 else .fail_to_reject_h0

/-- Embedding of `chi_square_test(contingency_table, alpha)`.  The function
calls `chi2_contingency`, prints a report whose decision line is modelled by
the first component `chiSquareDecision p alpha`, and returns the 4-tuple
`(chi2, p, dof, expected)` (second component).  The decision label is only
printed, not part of the Python return value. -/
def chi_square_test (pv : ℕ → ℚ → ℚ) (t : CTable) (alpha : ℚ) :
    Except PyErr (Decision × (ℚ × ℚ × ℕ × (Fin t.R → Fin t.C → ℚ))) :=
  match chi2_contingency pv t with
  | .error e => .error e
  | .ok (chi2, p, dof, expected) =>
      .ok (chiSquareDecision p alpha, (chi2, p, dof, expected))

/-- The decision line printed by `chi_square_test`. -/
def testDecision (pv : ℕ → ℚ → ℚ) (t : CTable) (alpha : ℚ) :
    Except PyErr Decision :=
  (chi_square_test pv t alpha).map (fun x => x.1)

/-- The value returned by `chi_square_test` (the Python `return chi2, p, dof,
expected`). -/
def testReturn (pv : ℕ → ℚ → ℚ) (t : CTable) (alpha : ℚ) :
    Except PyErr (ℚ × ℚ × ℕ × (Fin t.R → Fin t.C → ℚ)) :=
  (chi_square_test pv t alpha).map (fun x => x.2)

/-- Embedding of `cal_cramer_v(contingency_table)`, represented by the square
of the returned value: the Python code returns `sqrt(chi2 / (n * k))` with
`n = np.sum(values)` and `k = min(shape) = min(R, C)`; this definition returns
the radicand `chi2 / (n * k)`, of which the Python result is the square
root. -/
def cal_cramer_v_sq (pv : ℕ → ℚ → ℚ) (t : CTable) : Except PyErr ℚ :=
  match chi2_contingency pv t with
  | .error e => .error e
  | .ok (chi2, _, _, _) =>
      .ok (chi2 / (grandTotal t * (min t.R t.C : ℚ)))

/-- The inner helper `cal_k_val(num, n)` of `cal_cramer_v_adjusted`.  Its body
`val = num-1/(n-1)*(r-1)**2` uses the name `r`, which is defined nowhere in
any enclosing scope, so every call raises Python's `NameError`. -/
def cal_k_val (num n : ℚ) : Except PyErr ℚ :=
  .error .nameError

/-- The numerator computed on line 80 of the source:
`max(0, chi2/n - (n_col-1)*(n_row-1)/(n-1))`. -/
def adjNumerator (chi2 n : ℚ) (n_row n_col : ℕ) : ℚ :=
  max 0 (chi2 / n - ((n_col : ℚ) - 1) * ((n_row : ℚ) - 1) / (n - 1))

/-- Embedding of `cal_cramer_v_adjusted(contingency_table)`.  After computing
the chi-square statistic and the bias-corrected numerator, it calls
`cal_k_val`, which always raises `NameError`; the final line
`v = np.sqrt(numerator/denominator)` is unreachable (as in
`cal_cramer_v_sq`, the unreachable result is represented by the radicand). -/
def cal_cramer_v_adjusted (pv : ℕ → ℚ → ℚ) (t : CTable) : Except PyErr ℚ :=
  match chi2_contingency pv t with
  | .error e => .error e
  | .ok (chi2, _, _, _) =>
      let n := grandTotal t
      let numerator := adjNumerator chi2 n t.R t.C
      match cal_k_val (t.C : ℚ) n with
      | .error e => .error e
      | .ok k_col =>
          match cal_k_val (t.R : ℚ) n with
          | .error e => .error e
          | .ok k_row => .ok (numerator / min k_col k_row)

/-- Transpose of a contingency table. -/
def transposeTable (t : CTable) : CTable :=
  ⟨t.C, t.R, fun j i => t.entry i j⟩

/-- Concrete table `[[10, 20], [20, 10]]` from the spec's scenarios. -/
def T0 : CTable := ⟨2, 2, ![![10, 20], ![20, 10]]⟩

/-- Concrete table `[[5, 0], [10, 0]]`: positive grand total but a zero
column total. -/
def Tzc : CTable := ⟨2, 2, ![![5, 0], ![10, 0]]⟩

/-- Concrete table `[[0, 0], [5, 10]]` from the spec's zero-row scenario. -/
def Tzr : CTable := ⟨2, 2, ![![0, 0], ![5, 10]]⟩

/-- A concrete p-value function used to instantiate the abstract p-value
parameter in witnesses. -/
def pvHalf : ℕ → ℚ → ℚ := fun _ _ => 1 / 2

/-- Evaluation of a row total of a 2 × 2 table. -/
lemma rowTotal_two (f : Fin 2 → Fin 2 → ℚ) (i : Fin 2) :
    rowTotal ⟨2, 2, f⟩ i = f i 0 + f i 1 := by
  show (∑ j : Fin 2, f i j) = _
  simp [Fin.sum_univ_two]

/-- Evaluation of a column total of a 2 × 2 table. -/
lemma colTotal_two (f : Fin 2 → Fin 2 → ℚ) (j : Fin 2) :
    colTotal ⟨2, 2, f⟩ j = f 0 j + f 1 j := by
  show (∑ i : Fin 2, f i j) = _
  simp [Fin.sum_univ_two]

/-- Evaluation of the grand total of a 2 × 2 table. -/
lemma grandTotal_two (f : Fin 2 → Fin 2 → ℚ) :
    grandTotal ⟨2, 2, f⟩ = f 0 0 + f 0 1 + (f 1 0 + f 1 1) := by
  show (∑ i : Fin 2, ∑ j : Fin 2, f i j) = _
  simp [Fin.sum_univ_two]

/-- Evaluation of an expected frequency of a 2 × 2 table. -/
lemma expectedFreq_two (f : Fin 2 → Fin 2 → ℚ) (i j : Fin 2) :
    expectedFreq ⟨2, 2, f⟩ i j =
      (f i 0 + f i 1) * (f 0 j + f 1 j) /
        (f 0 0 + f 0 1 + (f 1 0 + f 1 1)) := by
  unfold expectedFreq
  rw [rowTotal_two, colTotal_two, grandTotal_two]

/-- Evaluation of the Pearson statistic of a 2 × 2 table. -/
lemma pearsonChi2_two (f : Fin 2 → Fin 2 → ℚ) :
    pearsonChi2 ⟨2, 2, f⟩ =
      (f 0 0 - expectedFreq ⟨2, 2, f⟩ 0 0) ^ 2 / expectedFreq ⟨2, 2, f⟩ 0 0 +
      (f 0 1 - expectedFreq ⟨2, 2, f⟩ 0 1) ^ 2 / expectedFreq ⟨2, 2, f⟩ 0 1 +
      ((f 1 0 - expectedFreq ⟨2, 2, f⟩ 1 0) ^ 2 / expectedFreq ⟨2, 2, f⟩ 1 0 +
       (f 1 1 - expectedFreq ⟨2, 2, f⟩ 1 1) ^ 2 /
         expectedFreq ⟨2, 2, f⟩ 1 1) := by
  show (∑ i : Fin 2, ∑ j : Fin 2,
      (f i j - expectedFreq ⟨2, 2, f⟩ i j) ^ 2 / expectedFreq ⟨2, 2, f⟩ i j)
    = _
  simp [Fin.sum_univ_two]

/-- Evaluation of `validInput` for a 2 × 2 table. -/
lemma validInput_two (f : Fin 2 → Fin 2 → ℚ) :
    validInput ⟨2, 2, f⟩ ↔
      (f 0 0 + f 0 1 ≠ 0 ∧ f 1 0 + f 1 1 ≠ 0 ∧
       f 0 0 + f 1 0 ≠ 0 ∧ f 0 1 + f 1 1 ≠ 0) := by
  unfold validInput
  constructor
  · rintro ⟨-, -, hr, hc⟩
    refine ⟨?_, ?_, ?_, ?_⟩
    · have := hr 0; rwa [rowTotal_two] at this
    · have := hr 1; rwa [rowTotal_two] at this
    · have := hc 0; rwa [colTotal_two] at this
    · have := hc 1; rwa [colTotal_two] at this
  · rintro ⟨h1, h2, h3, h4⟩
    refine ⟨le_refl 2, le_refl 2, ?_, ?_⟩
    · intro i
      rw [rowTotal_two]
      match i with
      | 0 => exact h1
      | 1 => exact h2
    · intro j
      rw [colTotal_two]
      match j with
      | 0 => exact h3
      | 1 => exact h4

/-- Row totals of the transpose are the column totals. -/
lemma rowTotal_transpose (t : CTable) (j : Fin t.C) :
    rowTotal (transposeTable t) j = colTotal t j := rfl

/-- Column totals of the transpose are the row totals. -/
lemma colTotal_transpose (t : CTable) (i : Fin t.R) :
    colTotal (transposeTable t) i = rowTotal t i := rfl

/-- The grand total is invariant under transposition. -/
lemma grandTotal_transpose (t : CTable) :
    grandTotal (transposeTable t) = grandTotal t := by
  show (∑ j : Fin t.C, ∑ i : Fin t.R, t.entry i j) = _
  exact Finset.sum_comm

/-- Expected frequencies transpose along with the table. -/
lemma expectedFreq_transpose (t : CTable) (j : Fin t.C) (i : Fin t.R) :
    expectedFreq (transposeTable t) j i = expectedFreq t i j := by
  show colTotal t j * rowTotal t i / grandTotal (transposeTable t) = _
  rw [grandTotal_transpose, mul_comm]
  rfl

/-- The Pearson statistic is invariant under transposition. -/
lemma pearsonChi2_transpose (t : CTable) :
    pearsonChi2 (transposeTable t) = pearsonChi2 t := by
  show (∑ j : Fin t.C, ∑ i : Fin t.R,
      (t.entry i j - expectedFreq (transposeTable t) j i) ^ 2 /
        expectedFreq (transposeTable t) j i) = _
  rw [Finset.sum_comm]
  unfold pearsonChi2
  refine Finset.sum_congr rfl fun i _ => Finset.sum_congr rfl fun j _ => ?_
  rw [expectedFreq_transpose]

/-- Input validity is invariant under transposition. -/
lemma validInput_transpose (t : CTable) :
    validInput (transposeTable t) ↔ validInput t := by
  unfold validInput
  constructor
  · rintro ⟨hC, hR, hr, hc⟩
    exact ⟨hR, hC, fun i => hc i, fun j => hr j⟩
  · rintro ⟨hR, hC, hr, hc⟩
    exact ⟨hC, hR, fun j => hc j, fun i => hr i⟩

/-- The degrees of freedom are invariant under transposition. -/
lemma degreesOfFreedom_transpose (t : CTable) :
    degreesOfFreedom (transposeTable t) = degreesOfFreedom t :=
  Nat.mul_comm _ _

/-
Plotting helper (src/plotter.py).  A DataFrame restricted to the three columns
used by `plot_bar_chart_multivariate_y_col` is modelled as a list of rows with
an x-value, a numeric y-value and a group value.  A plotly figure is modelled
by the list of bar traces added to it plus its layout fields; the styling
(transparent backgrounds, hidden grids, centred bold title) is constant and
omitted.
-/

/-- One row of the DataFrame, restricted to the x, y and group columns. -/
structure PlotRow where
  x : String
  y : ℚ
  g : String
deriving DecidableEq, Repr

/-- One bar trace added to the figure (`go.Bar(...)`). -/
structure BarTrace where
  xs : List String
  ys : List ℚ
  name : String
  marker_color : String
deriving DecidableEq, Repr

/-- A figure built by `plot_bar_chart_multivariate_y_col`. -/
structure Figure where
  traces : List BarTrace
  title : String
  x_axis_title : String
  y_axis_title : String
  height : ℕ
  width : ℕ
  barmode : String
deriving DecidableEq, Repr

/-- The fixed three-element colour list of
`plot_bar_chart_multivariate_y_col`. -/
def color_list : List String := ["#831010", "#564d4d", "#db0000"]

/-- Unique values of a column in order of first appearance
(`pandas.Series.unique`). -/
def pdUnique (xs : List String) : List String :=
  xs.foldl (fun acc v => if v ∈ acc then acc else acc ++ [v]) []

/-- The trace-building loop
`for i, group in enumerate(data[group_column].unique())`: the trace of group
number `i` takes colour `color_list[i]`, which raises `IndexError` when `i`
is out of range. -/
def buildTraces (sorted_data : List PlotRow) :
    List String → ℕ → Except PyErr (List BarTrace)
  | [], _ => .ok []
  | group :: rest, i =>
      match color_list[i]? with
      | none => .error .indexError
      | some c =>
          match buildTraces sorted_data rest (i + 1) with
          | .error e => .error e
          | .ok ts =>
              .ok ({ xs := (sorted_data.filter (fun row => row.g == group)).map
                       PlotRow.x
                   , ys := (sorted_data.filter (fun row => row.g == group)).map
                       PlotRow.y
                   , name := group, marker_color := c } :: ts)

/-- Embedding of `plot_bar_chart_multivariate_y_col(data, ...)`: sort the rows
by y descending, then add one bar trace per unique group value, colouring
trace `i` with `color_list[i]`. -/
def plot_bar_chart_multivariate_y_col (data : List PlotRow)
    (title x_axis_title y_axis_title : String) (height width : ℕ) :
    Except PyErr Figure :=
  match buildTraces (data.mergeSort (fun a b => decide (b.y ≤ a.y)))
      (pdUnique (data.map PlotRow.g)) 0 with
  | .error e => .error e
  | .ok ts =>
      .ok { traces := ts, title := title, x_axis_title := x_axis_title
          , y_axis_title := y_axis_title, height := height, width := width
          , barmode := "group" }

/-- Reduction of `chi2_contingency` on a valid table. -/
lemma chi2_contingency_valid (pv : ℕ → ℚ → ℚ) (t : CTable)
    (h : validInput t) :
    chi2_contingency pv t =
      .ok (pearsonChi2 t, pv (degreesOfFreedom t) (pearsonChi2 t),
           degreesOfFreedom t, fun i j => expectedFreq t i j) := by
  unfold chi2_contingency
  rw [if_pos h]

/-- Reduction of `chi2_contingency` on an invalid table. -/
lemma chi2_contingency_invalid (pv : ℕ → ℚ → ℚ) (t : CTable)
    (h : ¬ validInput t) :
    chi2_contingency pv t = .error .invalidInput := by
  unfold chi2_contingency
  rw [if_neg h]

/-- Reduction of `chi_square_test` on a valid table: the report's decision
label in the first component, the returned 4-tuple in the second. -/
lemma chi_square_test_valid (pv : ℕ → ℚ → ℚ) (t : CTable) (alpha : ℚ)
    (h : validInput t) :
    chi_square_test pv t alpha =
      .ok (chiSquareDecision (pv (degreesOfFreedom t) (pearsonChi2 t)) alpha,
           (pearsonChi2 t, pv (degreesOfFreedom t) (pearsonChi2 t),
            degreesOfFreedom t, fun i j => expectedFreq t i j)) := by
  unfold chi_square_test
  rw [chi2_contingency_valid pv t h]

/-- The table `[[10, 20], [20, 10]]` is a valid input. -/
lemma validInput_T0 : validInput T0 := by
  simp only [T0]
  rw [validInput_two]
  norm_num [Matrix.cons_val_zero, Matrix.cons_val_one, Matrix.head_cons]

/-- Pearson statistic of the table `[[10, 20], [20, 10]]`. -/
lemma pearsonChi2_T0 : pearsonChi2 T0 = 20 / 3 := by
  simp only [T0]
  rw [pearsonChi2_two]
  norm_num [expectedFreq_two, Matrix.cons_val_zero, Matrix.cons_val_one,
    Matrix.head_cons]

/-- C1: for every contingency table (and any p-value function) on which the
test runs, and every threshold alpha, `chi_square_test` decides REJECT_H0
exactly when the computed p-value is strictly below alpha, and decides
FAIL_TO_REJECT_H0 otherwise. -/
theorem C1_decision_iff (pv : ℕ → ℚ → ℚ) (t : CTable) (alpha : ℚ)
    (h : validInput t) :
    (testDecision pv t alpha = .ok .reject_h0 ↔
       pv (degreesOfFreedom t) (pearsonChi2 t) < alpha)
    ∧ (testDecision pv t alpha = .ok .fail_to_reject_h0 ↔
       ¬ pv (degreesOfFreedom t) (pearsonChi2 t) < alpha) := by
  unfold testDecision
  rw [chi_square_test_valid pv t alpha h]
  unfold chiSquareDecision
  by_cases hp : pv (degreesOfFreedom t) (pearsonChi2 t) < alpha
  · rw [if_pos hp]
    simp [Except.map, hp]
  · rw [if_neg hp]
    simp [Except.map, hp]

/-- Witness for C1 at the table `[[10, 20], [20, 10]]`, the p-value function
constantly 1/2 and alpha = 1/20. -/
theorem C1_decision_iff_witness :
    (testDecision pvHalf T0 (1/20) = .ok .reject_h0 ↔
       pvHalf (degreesOfFreedom T0) (pearsonChi2 T0) < 1/20)
    ∧ (testDecision pvHalf T0 (1/20) = .ok .fail_to_reject_h0 ↔
       ¬ pvHalf (degreesOfFreedom T0) (pearsonChi2 T0) < 1/20) :=
  C1_decision_iff pvHalf T0 (1/20) validInput_T0

/-- C3: `cal_cramer_v_adjusted` never returns a value; whenever the initial
`chi2_contingency` call succeeds, execution reaches the `cal_k_val` helper
and fails with `NameError` (the helper's body uses the undefined name `r`). -/
theorem C3_adjusted_never_returns (pv : ℕ → ℚ → ℚ) (t : CTable) :
    (cal_cramer_v_adjusted pv t).isOk = false
    ∧ (validInput t → cal_cramer_v_adjusted pv t = .error .nameError) := by
  constructor
  · unfold cal_cramer_v_adjusted
    by_cases h : validInput t
    · rw [chi2_contingency_valid pv t h]
      rfl
    · rw [chi2_contingency_invalid pv t h]
      rfl
  · intro h
    unfold cal_cramer_v_adjusted
    rw [chi2_contingency_valid pv t h]
    rfl

/-- Witness for C3 at the valid table `[[10, 20], [20, 10]]`. -/
theorem C3_adjusted_never_returns_witness :
    cal_cramer_v_adjusted pvHalf T0 = .error .nameError :=
  (C3_adjusted_never_returns pvHalf T0).2 validInput_T0

/-- C4: `chi_square_test` fails with `InvalidInputError` whenever the table
has fewer than 2 rows or fewer than 2 columns, or some row total or some
column total is zero. -/
theorem C4_invalid_table_error (pv : ℕ → ℚ → ℚ) (t : CTable) (alpha : ℚ)
    (h : t.R < 2 ∨ t.C < 2 ∨ (∃ i, rowTotal t i = 0) ∨
         (∃ j, colTotal t j = 0)) :
    chi_square_test pv t alpha = .error .invalidInput := by
  have hnv : ¬ validInput t := by
    rintro ⟨h1, h2, h3, h4⟩
    rcases h with h | h | ⟨i, hi⟩ | ⟨j, hj⟩
    · omega
    · omega
    · exact h3 i hi
    · exact h4 j hj
  unfold chi_square_test
  rw [chi2_contingency_invalid pv t hnv]

/-- Witness for C4 at the zero-row table `[[0, 0], [5, 10]]`. -/
theorem C4_invalid_table_error_witness :
    chi_square_test pvHalf Tzr (1/20) = .error .invalidInput :=
  C4_invalid_table_error pvHalf Tzr (1/20)
    (Or.inr (Or.inr (Or.inl ⟨(0 : Fin 2), by
      simp only [Tzr]
      rw [rowTotal_two]
      norm_num [Matrix.cons_val_zero, Matrix.cons_val_one,
        Matrix.head_cons]⟩)))

/-- C9: on every valid table the degrees of freedom returned by
`chi_square_test` equal `(R - 1) * (C - 1)`. -/
theorem C9_degrees_of_freedom (pv : ℕ → ℚ → ℚ) (t : CTable) (alpha : ℚ)
    (h : validInput t) :
    (chi_square_test pv t alpha).map (fun x => x.2.2.2.1) =
      .ok ((t.R - 1) * (t.C - 1)) := by
  rw [chi_square_test_valid pv t alpha h]
  rfl

/-- Witness for C9 at the table `[[10, 20], [20, 10]]`. -/
theorem C9_degrees_of_freedom_witness :
    (chi_square_test pvHalf T0 (1/20)).map (fun x => x.2.2.2.1) =
      .ok ((T0.R - 1) * (T0.C - 1)) :=
  C9_degrees_of_freedom pvHalf T0 (1/20) validInput_T0

/-- Grand total of the table `[[10, 20], [20, 10]]`. -/
lemma grandTotal_T0 : grandTotal T0 = 60 := by
  simp only [T0]
  rw [grandTotal_two]
  norm_num [Matrix.cons_val_zero, Matrix.cons_val_one, Matrix.head_cons]

/-- The all-zero 2 × 2 table. -/
def Tz0 : CTable := ⟨2, 2, fun _ _ => 0⟩

/-- C2 counterexample: the table `[[5, 0], [10, 0]]` has grand total
`15 > 0`, yet `cal_cramer_v` does not return a value on it: the
`chi2_contingency` call fails on the zero column total.  This refutes the
claim that a positive grand total alone suffices for `cal_cramer_v` to
return `sqrt(chi2 / (n * min(R, C)))`. -/
theorem C2_counterexample :
    0 < grandTotal Tzc ∧ cal_cramer_v_sq pvHalf Tzc = .error .invalidInput := by
  constructor
  · simp only [Tzc]
    rw [grandTotal_two]
    norm_num [Matrix.cons_val_zero, Matrix.cons_val_one, Matrix.head_cons]
  · have hnv : ¬ validInput Tzc := by
      simp only [Tzc]
      rw [validInput_two]
      norm_num [Matrix.cons_val_zero, Matrix.cons_val_one, Matrix.head_cons]
    unfold cal_cramer_v_sq
    rw [chi2_contingency_invalid pvHalf Tzc hnv]

/-- C2 amended: on every table accepted by the chi-square routine (no zero
row or column total, at least 2 rows and 2 columns; the grand total is then
nonzero on genuine count tables), `cal_cramer_v` returns
`sqrt(chi2 / (n * k))` with `k = min(R, C)` — the non-conventional
denominator, not `min(R-1, C-1)`.  The first conjunct gives the radicand,
the second the square-root-valued result. -/
theorem C2_cramer_v_formula (pv : ℕ → ℚ → ℚ) (t : CTable)
    (h : validInput t) :
    cal_cramer_v_sq pv t =
      .ok (pearsonChi2 t / (grandTotal t * (min t.R t.C : ℚ)))
    ∧ (cal_cramer_v_sq pv t).map (fun q => Real.sqrt (q : ℝ)) =
      .ok (Real.sqrt
        ((pearsonChi2 t / (grandTotal t * (min t.R t.C : ℚ)) : ℚ) : ℝ)) := by
  have h1 : cal_cramer_v_sq pv t =
      .ok (pearsonChi2 t / (grandTotal t * (min t.R t.C : ℚ))) := by
    unfold cal_cramer_v_sq
    rw [chi2_contingency_valid pv t h]
  exact ⟨h1, by rw [h1]; rfl⟩

/-- Witness for the amended C2 at the table `[[10, 20], [20, 10]]`. -/
theorem C2_cramer_v_formula_witness :
    cal_cramer_v_sq pvHalf T0 =
      .ok (pearsonChi2 T0 / (grandTotal T0 * (min T0.R T0.C : ℚ)))
    ∧ (cal_cramer_v_sq pvHalf T0).map (fun q => Real.sqrt (q : ℝ)) =
      .ok (Real.sqrt
        ((pearsonChi2 T0 / (grandTotal T0 * (min T0.R T0.C : ℚ)) : ℚ) : ℝ)) :=
  C2_cramer_v_formula pvHalf T0 validInput_T0

/-- C5: on tables of non-negative counts, `cal_cramer_v` fails with
`InvalidInputError` when the grand total is 0; and whenever the table passes
the shape and marginal-total checks (conditions not tied to `n`), it
succeeds — so `n = 0` is the only failure condition involving `n`. -/
theorem C5_cramer_v_error_condition (pv : ℕ → ℚ → ℚ) (t : CTable)
    (hnn : nonnegTable t) :
    (grandTotal t = 0 → cal_cramer_v_sq pv t = .error .invalidInput)
    ∧ (validInput t → (cal_cramer_v_sq pv t).isOk = true) := by
  constructor
  · intro hn0
    have hnv : ¬ validInput t := by
      rintro ⟨hR, hC, hr, hc⟩
      have hrow_nonneg : ∀ i ∈ Finset.univ, (0 : ℚ) ≤ rowTotal t i :=
        fun i _ => Finset.sum_nonneg fun j _ => hnn i j
      have hsum : ∑ i : Fin t.R, rowTotal t i = 0 := hn0
      have hzero := (Finset.sum_eq_zero_iff_of_nonneg hrow_nonneg).mp hsum
      exact hr ⟨0, by omega⟩ (hzero ⟨0, by omega⟩ (Finset.mem_univ _))
    unfold cal_cramer_v_sq
    rw [chi2_contingency_invalid pv t hnv]
  · intro h
    unfold cal_cramer_v_sq
    rw [chi2_contingency_valid pv t h]
    rfl

/-- Witness for C5: on the all-zero table the grand total is 0 and
`cal_cramer_v` fails with `InvalidInputError`. -/
theorem C5_cramer_v_error_condition_witness :
    cal_cramer_v_sq pvHalf Tz0 = .error .invalidInput :=
  (C5_cramer_v_error_condition pvHalf Tz0 (fun _ _ => le_refl 0)).1
    (by rw [show Tz0 = ⟨2, 2, fun _ _ => 0⟩ from rfl, grandTotal_two]; norm_num)

/-- C6 counterexample: with the same table and p-value, two thresholds that
yield opposite decisions produce identical return values — the decision label
appears only in the printed report, so the value returned by
`chi_square_test` does not contain it (it has four components, not five). -/
theorem C6_counterexample :
    testReturn pvHalf T0 (1/20) = testReturn pvHalf T0 (9/10)
    ∧ testDecision pvHalf T0 (1/20) ≠ testDecision pvHalf T0 (9/10) := by
  have h1 := chi_square_test_valid pvHalf T0 (1/20) validInput_T0
  have h2 := chi_square_test_valid pvHalf T0 (9/10) validInput_T0
  have hd1 : chiSquareDecision (pvHalf (degreesOfFreedom T0) (pearsonChi2 T0))
      (1/20) = .fail_to_reject_h0 := by
    norm_num [chiSquareDecision, pvHalf]
  have hd2 : chiSquareDecision (pvHalf (degreesOfFreedom T0) (pearsonChi2 T0))
      (9/10) = .reject_h0 := by
    norm_num [chiSquareDecision, pvHalf]
  constructor
  · unfold testReturn
    rw [h1, h2]
    rfl
  · have e1 : testDecision pvHalf T0 (1/20) = .ok .fail_to_reject_h0 := by
      unfold testDecision
      rw [h1, hd1]
      rfl
    have e2 : testDecision pvHalf T0 (9/10) = .ok .reject_h0 := by
      unfold testDecision
      rw [h2, hd2]
      rfl
    rw [e1, e2]
    simp

/-- C6 amended: on every valid table the value returned by `chi_square_test`
consists of the four components (statistic, p-value, degrees of freedom,
expected-frequency table); the decision label (REJECT_H0 iff p < alpha) is
emitted in the printed report, not in the return value. -/
theorem C6_return_components (pv : ℕ → ℚ → ℚ) (t : CTable) (alpha : ℚ)
    (h : validInput t) :
    testReturn pv t alpha =
      .ok (pearsonChi2 t, pv (degreesOfFreedom t) (pearsonChi2 t),
           degreesOfFreedom t, fun i j => expectedFreq t i j)
    ∧ testDecision pv t alpha =
      .ok (chiSquareDecision
            (pv (degreesOfFreedom t) (pearsonChi2 t)) alpha) := by
  unfold testReturn testDecision
  rw [chi_square_test_valid pv t alpha h]
  exact ⟨rfl, rfl⟩

/-- Witness for the amended C6 at the table `[[10, 20], [20, 10]]`. -/
theorem C6_return_components_witness :
    testReturn pvHalf T0 (1/20) =
      .ok (pearsonChi2 T0, pvHalf (degreesOfFreedom T0) (pearsonChi2 T0),
           degreesOfFreedom T0, fun i j => expectedFreq T0 i j)
    ∧ testDecision pvHalf T0 (1/20) =
      .ok (chiSquareDecision
            (pvHalf (degreesOfFreedom T0) (pearsonChi2 T0)) (1/20)) :=
  C6_return_components pvHalf T0 (1/20) validInput_T0

/-- C7: both `cal_cramer_v` and `cal_cramer_v_adjusted` are invariant under
transposition of the contingency table: on every table (and p-value
function) each yields on the transpose exactly the outcome it yields on the
table itself — the same value for `cal_cramer_v`, and the same failure for
`cal_cramer_v_adjusted`, which never produces a value. -/
theorem C7_transpose_invariance (pv : ℕ → ℚ → ℚ) (t : CTable) :
    cal_cramer_v_sq pv (transposeTable t) = cal_cramer_v_sq pv t
    ∧ cal_cramer_v_adjusted pv (transposeTable t) =
        cal_cramer_v_adjusted pv t := by
  by_cases h : validInput t
  · have ht : validInput (transposeTable t) := (validInput_transpose t).mpr h
    constructor
    · unfold cal_cramer_v_sq
      rw [chi2_contingency_valid pv t h,
          chi2_contingency_valid pv (transposeTable t) ht]
      show Except.ok (pearsonChi2 (transposeTable t) /
          (grandTotal (transposeTable t) * (min t.C t.R : ℚ))) =
        Except.ok (pearsonChi2 t / (grandTotal t * (min t.R t.C : ℚ)))
      rw [pearsonChi2_transpose, grandTotal_transpose,
          min_comm (t.C : ℚ) (t.R : ℚ)]
    · unfold cal_cramer_v_adjusted
      rw [chi2_contingency_valid pv t h,
          chi2_contingency_valid pv (transposeTable t) ht]
      rfl
  · have ht : ¬ validInput (transposeTable t) :=
      fun hc => h ((validInput_transpose t).mp hc)
    constructor
    · unfold cal_cramer_v_sq
      rw [chi2_contingency_invalid pv t h,
          chi2_contingency_invalid pv (transposeTable t) ht]
    · unfold cal_cramer_v_adjusted
      rw [chi2_contingency_invalid pv t h,
          chi2_contingency_invalid pv (transposeTable t) ht]

/-- C8: for every table with grand total above 1, the numerator computed by
`cal_cramer_v_adjusted` equals `max(0, chi2/n - (C-1)(R-1)/(n-1))` with
`chi2` the Pearson statistic, and in particular it is never negative. -/
theorem C8_adjusted_numerator (t : CTable) (hn : 1 < grandTotal t) :
    adjNumerator (pearsonChi2 t) (grandTotal t) t.R t.C =
      max 0 (pearsonChi2 t / grandTotal t -
        ((t.C : ℚ) - 1) * ((t.R : ℚ) - 1) / (grandTotal t - 1))
    ∧ 0 ≤ adjNumerator (pearsonChi2 t) (grandTotal t) t.R t.C :=
  ⟨rfl, le_max_left 0 _⟩

/-- Witness for C8 at the table `[[10, 20], [20, 10]]` with grand total 60. -/
theorem C8_adjusted_numerator_witness :
    adjNumerator (pearsonChi2 T0) (grandTotal T0) T0.R T0.C =
      max 0 (pearsonChi2 T0 / grandTotal T0 -
        ((T0.C : ℚ) - 1) * ((T0.R : ℚ) - 1) / (grandTotal T0 - 1))
    ∧ 0 ≤ adjNumerator (pearsonChi2 T0) (grandTotal T0) T0.R T0.C :=
  C8_adjusted_numerator T0 (by rw [grandTotal_T0]; norm_num)

/-- The colour list has exactly three entries. -/
lemma color_list_length : color_list.length = 3 := rfl

/-- When the running index plus the number of remaining groups exceeds the
colour list, the trace-building loop raises `IndexError`. -/
lemma buildTraces_oob (sd : List PlotRow) (groups : List String) :
    ∀ i : ℕ, i ≤ 3 → 3 < i + groups.length →
      buildTraces sd groups i = .error .indexError := by
  induction groups with
  | nil =>
      intro i h1 h2
      simp only [List.length_nil] at h2
      omega
  | cons g rest ih =>
      intro i h1 h2
      simp only [buildTraces]
      by_cases h3 : i < 3
      · rw [List.getElem?_eq_getElem (by rw [color_list_length]; exact h3)]
        rw [ih (i + 1) (by omega)
          (by simp only [List.length_cons] at h2; omega)]
      · rw [List.getElem?_eq_none (by rw [color_list_length]; omega)]

/-- When the running index plus the number of remaining groups fits in the
colour list, the trace-building loop succeeds. -/
lemma buildTraces_ok (sd : List PlotRow) (groups : List String) :
    ∀ i : ℕ, i + groups.length ≤ 3 →
      (buildTraces sd groups i).isOk = true := by
  induction groups with
  | nil =>
      intro i _
      rfl
  | cons g rest ih =>
      intro i h
      simp only [List.length_cons] at h
      simp only [buildTraces]
      rw [List.getElem?_eq_getElem (by rw [color_list_length]; omega)]
      have hrec := ih (i + 1) (by omega)
      cases hcase : buildTraces sd rest (i + 1) with
      | error e =>
          rw [hcase] at hrec
          simp [Except.isOk, Except.toBool] at hrec
      | ok ts =>
          rfl

/-- The figure construction succeeds exactly when the trace-building loop
does. -/
lemma plot_isOk_eq (data : List PlotRow) (title xt yt : String)
    (h w : ℕ) :
    (plot_bar_chart_multivariate_y_col data title xt yt h w).isOk =
      (buildTraces (data.mergeSort (fun a b => decide (b.y ≤ a.y)))
        (pdUnique (data.map PlotRow.g)) 0).isOk := by
  unfold plot_bar_chart_multivariate_y_col
  cases buildTraces (data.mergeSort (fun a b => decide (b.y ≤ a.y)))
      (pdUnique (data.map PlotRow.g)) 0 with
  | error e => rfl
  | ok ts => rfl

/-- C10: `plot_bar_chart_multivariate_y_col` colours trace `i` with the
`i`-th entry of a fixed three-element colour list, so it fails with
`IndexError` whenever the group column has more than 3 unique values, and it
returns a figure exactly when the group column has at most 3 unique
values. -/
theorem C10_color_list_limit (data : List PlotRow) (title xt yt : String)
    (h w : ℕ) :
    (3 < (pdUnique (data.map PlotRow.g)).length →
       plot_bar_chart_multivariate_y_col data title xt yt h w =
         .error .indexError)
    ∧ ((plot_bar_chart_multivariate_y_col data title xt yt h w).isOk = true ↔
       (pdUnique (data.map PlotRow.g)).length ≤ 3) := by
  constructor
  · intro hgt
    unfold plot_bar_chart_multivariate_y_col
    rw [buildTraces_oob _ _ 0 (by omega) (by omega)]
  · rw [plot_isOk_eq]
    constructor
    · intro hok
      by_contra hgt
      rw [buildTraces_oob _ _ 0 (by omega) (by omega)] at hok
      simp [Except.isOk, Except.toBool] at hok
    · intro hle
      exact buildTraces_ok _ _ 0 (by omega)

/-- A DataFrame whose group column holds four distinct values. -/
def data4 : List PlotRow :=
  [⟨"a", 1, "g1"⟩, ⟨"b", 2, "g2"⟩, ⟨"c", 3, "g3"⟩, ⟨"d", 4, "g4"⟩]

/-- A fixed label used to instantiate the title and axis-title arguments. -/
def lbl : String := "label"

/-- Witness for C10: on four distinct groups the call fails with
`IndexError`. -/
theorem C10_color_list_limit_witness :
    plot_bar_chart_multivariate_y_col data4 lbl lbl lbl 600 800 =
      .error .indexError :=
  (C10_color_list_limit data4 lbl lbl lbl 600 800).1 (by decide)
